import Mathlib

/-!
Verification of the Wasteless UI state coordination layer: the Session
State Store (`AuthContext`) and the Notification State Store (`UIContext`),
shallowly embedded from the TypeScript source.  Machine state is explicit:
the session store is a pair (in-memory user, durable localStorage slot),
the notification store is a list of toasts plus the pending auto-dismiss
timers, and time is passed explicitly to the operations that read the
clock (`Date.now()`).
-/

namespace Wasteless

/-- The `User` record of `AuthContext.tsx`: `{ id, email, name }`. -/
structure User where
  id : String
  email : String
  name : String
deriving DecidableEq, Repr

/-- Modelled from the spec: the text held by the durable slot.  The
platform functions `JSON.stringify` / `JSON.parse` are not part of this
repository; we model the texts they exchange.  `ofUser u` is the
serialization of a `User` produced by `JSON.stringify`; `raw s` is any
other text (e.g. a manually corrupted slot), which does not parse back
into a `User`. -/
inductive SlotText where
  | ofUser : User → SlotText
  | raw : String → SlotText
deriving DecidableEq, Repr

/-- Model of `JSON.stringify(userData)` as used by `login`. -/
def stringifyUser (u : User) : SlotText := SlotText.ofUser u

/-- Model of `JSON.parse(savedUser)` as used by the restore effect:
returns `some` user on a valid serialization, `none` when parsing throws
(the `catch` branch of the source). -/
def parseUser : SlotText → Option User
  | SlotText.ofUser u => some u
  | SlotText.raw _ => none

/-- Session store state: the React `user` state (`null` = `none`) and the
durable localStorage entry under the fixed key `"wasteless_user"`
(`none` = key absent). -/
structure AuthState where
  user : Option User
  slot : Option SlotText
deriving DecidableEq, Repr

/-- `login(userData)`: `setUser(userData)` and
`localStorage.setItem("wasteless_user", JSON.stringify(userData))`. -/
def login (userData : User) (_s : AuthState) : AuthState :=
  { user := some userData, slot := some (stringifyUser userData) }

/-- `logout()`: `setUser(null)` and
`localStorage.removeItem("wasteless_user")`. -/
def logout (_s : AuthState) : AuthState :=
  { user := none, slot := none }

/-- JavaScript truthiness of the stored slot text, for the
`if (savedUser)` guard of the restore effect: the empty string is falsy,
every other text — in particular any `JSON.stringify` output — is
truthy. -/
def truthy : SlotText → Bool
  | SlotText.ofUser _ => true
  | SlotText.raw str => str != ""

/-- The restore `useEffect` of `AuthProvider`: read the slot; if the read
text is truthy (`if (savedUser)`), try to parse it; on success `setUser`
with the parsed value, on failure remove the slot (the `catch` branch).
A falsy read — key absent, or a slot holding the empty string — skips
the block entirely.  Total: no exception escapes. -/
def restore (s : AuthState) : AuthState :=
  match s.slot with
  | none => s
  | some savedUser =>
    if truthy savedUser then
      match parseUser savedUser with
      | some u => { s with user := some u }
      | none => { s with slot := none }
    else
      s

/-- A fresh mount of `AuthProvider` over a pre-existing durable slot:
React state starts at `useState(null)`, then the restore effect runs. -/
def initAuth (slot : Option SlotText) : AuthState :=
  restore { user := none, slot := slot }

/-- `currentIdentity()`: the `user` value exposed by the context. -/
def currentIdentity (s : AuthState) : Option User := s.user

/-- `isAuthenticated`: `user !== null`, derived on every render. -/
def isAuthenticated (s : AuthState) : Bool := s.user.isSome

/-- Consistency between the in-memory value and the durable slot: the
slot holds exactly the serialization of the in-memory user (and is absent
when no user is held). -/
def consistent (s : AuthState) : Prop := s.slot = s.user.map stringifyUser

/-- The `Toast["type"]` union of `UIContext.tsx`. -/
inductive ToastType where
  | success
  | error
  | info
  | warning
deriving DecidableEq, Repr

/-- The `Toast` record of `UIContext.tsx`: `{ id, message, type }`. -/
structure Toast where
  id : String
  message : String
  type : ToastType
deriving DecidableEq, Repr

/-- A pending `setTimeout` scheduled by `showToast`: fires at `fireAt`
and calls `removeToast id`. -/
structure Timer where
  fireAt : Nat
  id : String
deriving DecidableEq, Repr

/-- Notification store state: the `isLoading` flag, the `toasts` array
(insertion order, oldest first) and the pending auto-dismiss timers. -/
structure UIState where
  isLoading : Bool
  toasts : List Toast
  timers : List Timer
deriving DecidableEq, Repr

/-- The initial `UIProvider` state: `useState(false)` and `useState([])`. -/
def initUI : UIState :=
  { isLoading := false, toasts := [], timers := [] }

/-- `removeToast(id)`:
`setToasts((prev) => prev.filter((toast) => toast.id !== id))`. -/
def removeToast (id : String) (s : UIState) : UIState :=
  { s with toasts := s.toasts.filter (fun toast => toast.id != id) }

/-- `showToast(message, type = "info")` invoked when `Date.now()` reads
`now`: computes `id = Date.now().toString()`, appends the new toast, and
schedules `removeToast(id)` after 3000 ms.  The arrow function has a
block body and is typed `=> void`, so its returned value is `undefined`,
modelled as the `Option String` component `none` (a returned id would be
`some id`). -/
def showToast (now : Nat) (message : String) (type : ToastType)
    (s : UIState) : Option String × UIState :=
  let id := toString now
  let newToast : Toast := { id := id, message := message, type := type }
  (none,
    { s with
      toasts := s.toasts ++ [newToast],
      timers := s.timers ++ [{ fireAt := now + 3000, id := id }] })

/-- `showToast(message)` with the severity argument omitted: the default
parameter `type = "info"` applies. -/
def showToastDefault (now : Nat) (message : String) (s : UIState) :
    Option String × UIState :=
  showToast now message ToastType.info s

/-- `setIsLoading(b)` exposed by the context. -/
def setIsLoading (b : Bool) (s : UIState) : UIState :=
  { s with isLoading := b }

/-- A pending timer firing: the `setTimeout` callback runs
`removeToast(id)`; the timer itself is spent. -/
def fireTimer (t : Timer) (s : UIState) : UIState :=
  removeToast t.id { s with timers := s.timers.erase t }

/-- The value record provided by `AuthContext.Provider`, as observable
data: the `user` field and the derived `isAuthenticated` flag. -/
structure AuthContextValue where
  user : Option User
  isAuthenticated : Bool
deriving DecidableEq, Repr

/-- The value record provided by `UIContext.Provider`, as observable
data: the `isLoading` flag and the `toasts` array. -/
structure UIContextValue where
  isLoading : Bool
  toasts : List Toast
deriving DecidableEq, Repr

/-- `useAuth()`: reads the context (which is `undefined` = `none` outside
an `AuthProvider`) and throws a configuration error when it is absent. -/
def useAuth (context : Option AuthContextValue) :
    Except String AuthContextValue :=
  match context with
  | none => Except.error "useAuth must be used within an AuthProvider"
  | some c => Except.ok c

/-- `useUI()`: reads the context (which is `undefined` = `none` outside a
`UIProvider`) and throws a configuration error when it is absent. -/
def useUI (context : Option UIContextValue) :
    Except String UIContextValue :=
  match context with
  | none => Except.error "useUI must be used within a UIProvider"
  | some c => Except.ok c

/-- Sample toast with id `"2"`, used as a concrete input. -/
def toastA : Toast := { id := "2", message := "kept", type := ToastType.info }

/-- Sample toast with id `"1"`, used as a concrete input. -/
def toastB : Toast := { id := "1", message := "gone", type := ToastType.info }

/-- Sample notification-store state holding `toastB` then `toastA`. -/
def sampleUI : UIState := { isLoading := false, toasts := [toastB, toastA], timers := [] }

/-- Helper: filtering a toast list by `id` mismatch is idempotent. -/
theorem filter_ne_id_idem (id : String) (l : List Toast) :
    (l.filter (fun toast => toast.id != id)).filter (fun toast => toast.id != id)
      = l.filter (fun toast => toast.id != id) := by
  induction l with
  | nil => rfl
  | cons hd tl ih =>
    by_cases h : hd.id = id <;> simp [h, ih, List.filter_cons]

/-- C1 counterexample: two `show` calls within the same scheduling tick
(both read `Date.now() = 5`) are assigned the SAME id `"5"`: the list of
ids is `["5", "5"]`, which has a duplicate, so the calls do not receive
distinct `NotificationId`s. -/
theorem showToast_same_tick_collision :
    ((showToast 5 "second" ToastType.info
        (showToast 5 "first" ToastType.info initUI).2).2.toasts.map Toast.id)
        = ["5", "5"] ∧
      ¬ ((showToast 5 "second" ToastType.info
        (showToast 5 "first" ToastType.info initUI).2).2.toasts.map Toast.id).Nodup :=
  ⟨rfl, by decide⟩

/-- C1 (amended): two `show` calls within the same scheduling tick (same
`Date.now()` reading `now`) are both appended, in call order, with none
overwritten — but both receive the same id `toString now` (the
time-based generator collides within a tick; calls at distinct readings
get distinct ids). -/
theorem showToast_same_tick_order (s : UIState) (now : Nat)
    (m1 m2 : String) (t1 t2 : ToastType) :
    (showToast now m2 t2 (showToast now m1 t1 s).2).2.toasts
      = s.toasts ++ [⟨toString now, m1, t1⟩, ⟨toString now, m2, t2⟩] := by
  simp [showToast]

/-- C2 counterexample: `showToast` assigns the id `"5"` to the appended
notification but its returned value is `undefined` (`none`), not the
assigned id — the TypeScript signature is `(message, type) => void`. -/
theorem showToast_returns_undefined :
    (showToast 5 "x" ToastType.success initUI).1 = none ∧
      (showToast 5 "x" ToastType.success initUI).2.toasts.map Toast.id = ["5"] :=
  ⟨rfl, rfl⟩

/-- C2 (amended): for every message, severity, state and clock reading,
`show` appends exactly one new notification at the end of the sequence,
schedules its automatic removal 3000 ms (3 seconds) after the call, and
returns no value (`undefined`); the assigned id is the decimal string of
the clock reading, carried on the appended notification. -/
theorem showToast_appends_and_schedules (s : UIState) (now : Nat)
    (message : String) (type : ToastType) :
    (showToast now message type s).2.toasts
        = s.toasts ++ [⟨toString now, message, type⟩] ∧
      (showToast now message type s).2.timers
        = s.timers ++ [⟨now + 3000, toString now⟩] ∧
      (showToast now message type s).1 = none :=
  ⟨rfl, rfl, rfl⟩

/-- C3 counterexample: the empty string is a non-parseable slot text
(`JSON.parse("")` throws), yet initialization over it keeps the slot
entry — the falsy text skips the `if (savedUser)` block, so the slot is
not deleted as the claim requires. -/
theorem empty_corrupt_slot_kept :
    parseUser (SlotText.raw "") = none ∧
      (initAuth (some (SlotText.raw ""))).slot = some (SlotText.raw "") :=
  ⟨rfl, rfl⟩

/-- C3 (amended): for every non-parseable slot text, initialization
completes (restore is total — no exception escapes) with an empty
`currentIdentity`; the slot entry is deleted when the stored text is
truthy, but a slot holding the (falsy) empty string is skipped by the
`if (savedUser)` guard and left in place. -/
theorem corrupt_slot_init_recovers (txt : SlotText)
    (h : parseUser txt = none) :
    (initAuth (some txt)).user = none ∧
      (truthy txt = true →
        initAuth (some txt) = { user := none, slot := none }) ∧
      (truthy txt = false →
        initAuth (some txt) = { user := none, slot := some txt }) := by
  cases txt with
  | ofUser u => exact absurd h (by simp [parseUser])
  | raw str =>
    by_cases hs : str = ""
    · subst hs
      exact ⟨rfl, fun ht => by simp [truthy] at ht, fun _ => rfl⟩
    · have hr : initAuth (some (SlotText.raw str))
          = { user := none, slot := none } := by
        simp [initAuth, restore, truthy, parseUser, hs]
      exact ⟨by rw [hr], fun _ => hr,
        fun hf => by simp [truthy, hs] at hf⟩

/-- Witness for C3 at the concrete corrupted slot texts `"not json"`
(truthy: slot deleted) and `""` (falsy: slot kept). -/
theorem corrupt_slot_init_recovers_witness :
    (initAuth (some (SlotText.raw "not json"))).user = none ∧
      initAuth (some (SlotText.raw "not json"))
        = { user := none, slot := none } ∧
      initAuth (some (SlotText.raw ""))
        = { user := none, slot := some (SlotText.raw "") } :=
  ⟨(corrupt_slot_init_recovers (SlotText.raw "not json") rfl).1,
   (corrupt_slot_init_recovers (SlotText.raw "not json") rfl).2.1 rfl,
   (corrupt_slot_init_recovers (SlotText.raw "") rfl).2.2 rfl⟩

/-- C4: `login(u)` followed by a fresh store initialization over the
preserved durable slot restores `currentIdentity() = u` without a new
login: serialization on login composed with the startup read-and-parse
is a round trip. -/
theorem login_restart_roundtrip (u : User) (s : AuthState) :
    currentIdentity (initAuth (login u s).slot) = some u := rfl

/-- Concrete user mirroring the mock login data of the demo page. -/
def userA : User :=
  { id := "123", email := "user@wasteless.com", name := "John Doe" }

/-- C5 counterexample: a startup restore over a slot holding the falsy
empty string terminates with the slot still present while the in-memory
identity is empty — the two sides disagree after the operation. -/
theorem restore_empty_slot_inconsistent :
    initAuth (some (SlotText.raw ""))
        = { user := none, slot := some (SlotText.raw "") } ∧
      ¬ consistent (initAuth (some (SlotText.raw ""))) :=
  ⟨rfl, by unfold consistent; decide⟩

/-- C5 (amended): after `login`, after `logout`, and after every startup
restore except over a slot holding the falsy empty string, the in-memory
identity and the durable slot agree: the slot holds exactly the
serialization of the in-memory user.  Each operation is a single atomic
state transition, so no state with only one side updated is observable;
the empty-string slot is the one case the truthiness guard leaves
inconsistent. -/
theorem store_ops_keep_consistency :
    (∀ slot : Option SlotText, slot ≠ some (SlotText.raw "") →
        consistent (initAuth slot)) ∧
      (∀ (u : User) (s : AuthState), consistent (login u s)) ∧
      (∀ s : AuthState, consistent (logout s)) := by
  refine ⟨?_, fun u s => rfl, fun s => rfl⟩
  intro slot hne
  cases slot with
  | none => rfl
  | some txt =>
    cases txt with
    | ofUser u => rfl
    | raw str =>
      have hs : str ≠ "" := fun h => hne (by rw [h])
      unfold consistent
      simp [initAuth, restore, truthy, parseUser, hs]

/-- Witness for C5 at concrete states: restore over the slot written for
`userA`, a login of `userA`, and a logout from a logged-in state. -/
theorem store_ops_keep_consistency_witness :
    consistent (initAuth (some (SlotText.ofUser userA))) ∧
      consistent (login userA { user := none, slot := none }) ∧
      consistent (logout
        { user := some userA, slot := some (SlotText.ofUser userA) }) :=
  ⟨store_ops_keep_consistency.1 (some (SlotText.ofUser userA)) (by decide),
   store_ops_keep_consistency.2.1 userA { user := none, slot := none },
   store_ops_keep_consistency.2.2
     { user := some userA, slot := some (SlotText.ofUser userA) }⟩

/-- C6: `dismiss(id)` is idempotent — a second call leaves the state
exactly as after the first — and when no notification with that id is
present the call is a no-op returning the state unchanged. -/
theorem removeToast_idempotent (id : String) (s : UIState) :
    removeToast id (removeToast id s) = removeToast id s ∧
      ((∀ t ∈ s.toasts, t.id ≠ id) → removeToast id s = s) := by
  constructor
  · simp only [removeToast]
    rw [filter_ne_id_idem]
  · intro h
    have hf : s.toasts.filter (fun toast => toast.id != id) = s.toasts :=
      List.filter_eq_self.mpr (fun t ht => by simpa using h t ht)
    calc removeToast id s = UIState.mk s.isLoading
            (s.toasts.filter (fun toast => toast.id != id)) s.timers := rfl
      _ = s := by rw [hf]

/-- Witness for C6: dismissing id `"9"` (absent from `sampleUI`) is a
no-op, and repeating a dismissal of id `"1"` changes nothing further. -/
theorem removeToast_idempotent_witness :
    removeToast "9" sampleUI = sampleUI ∧
      removeToast "1" (removeToast "1" sampleUI) = removeToast "1" sampleUI :=
  ⟨(removeToast_idempotent "9" sampleUI).2 (by decide),
   (removeToast_idempotent "1" sampleUI).1⟩

/-- C7: after `login(u)` the current identity is `u`, `isAuthenticated`
is `true`, and the durable slot holds the serialization of `u`; moreover
`isAuthenticated` is always exactly the derived predicate "the current
identity is non-empty". -/
theorem login_sets_identity (u : User) (s : AuthState) :
    currentIdentity (login u s) = some u ∧
      isAuthenticated (login u s) = true ∧
      (login u s).slot = some (stringifyUser u) ∧
      (∀ s2 : AuthState, isAuthenticated s2 = (currentIdentity s2).isSome) :=
  ⟨rfl, rfl, rfl, fun _ => rfl⟩

/-- C8: invoking either hook outside its provider (context absent) fails
with a configuration error naming the missing provider — it never
returns a silent default; inside the provider each hook returns the
provided value. -/
theorem hooks_fail_outside_provider :
    useAuth none = Except.error "useAuth must be used within an AuthProvider" ∧
      useUI none = Except.error "useUI must be used within a UIProvider" ∧
      (∀ c, useAuth (some c) = Except.ok c) ∧
      (∀ c, useUI (some c) = Except.ok c) :=
  ⟨rfl, rfl, fun _ => rfl, fun _ => rfl⟩

/-- C9: `dismiss(id)` removes every notification whose id equals the
argument, keeps every other notification, preserves the relative order
of the survivors (the result is a sublist of the input), and changes
nothing else in the store. -/
theorem removeToast_removes_all_matches (id : String) (s : UIState) :
    (removeToast id s).toasts.Sublist s.toasts ∧
      (∀ t ∈ (removeToast id s).toasts, t.id ≠ id) ∧
      (∀ t ∈ s.toasts, t.id ≠ id → t ∈ (removeToast id s).toasts) ∧
      (removeToast id s).isLoading = s.isLoading ∧
      (removeToast id s).timers = s.timers := by
  refine ⟨List.filter_sublist _, ?_, ?_, rfl, rfl⟩
  · intro t ht
    have := (List.mem_filter.mp ht).2
    simpa using this
  · intro t ht h
    exact List.mem_filter.mpr ⟨ht, by simpa using h⟩

/-- Witness for C9 at the concrete state `sampleUI` and id `"1"`: the
non-matching toast `toastA` survives the dismissal. -/
theorem removeToast_removes_all_matches_witness :
    toastA ∈ (removeToast "1" sampleUI).toasts :=
  (removeToast_removes_all_matches "1" sampleUI).2.2.1 toastA
    (by decide) (by decide)

/-- C10: `show` performs no validation of the message — the empty string
is still appended as the message of exactly one new notification — and
when the severity argument is omitted the default parameter applies, so
the notification is created with severity `info`. -/
theorem showToast_no_validation (now : Nat) (m : String) (ty : ToastType)
    (s : UIState) :
    (showToast now "" ty s).2.toasts
        = s.toasts ++ [⟨toString now, "", ty⟩] ∧
      showToastDefault now m s = showToast now m ToastType.info s ∧
      (showToastDefault now m s).2.toasts
        = s.toasts ++ [⟨toString now, m, ToastType.info⟩] :=
  ⟨rfl, rfl, rfl⟩

end Wasteless
